import Mathlib

set_option maxRecDepth 2048

/-!
Shallow embedding of `rename_pdfs.py` (plisking/rename_pdf).

Python strings are modelled as `List Char` (one element per Unicode scalar
value).  The character-classification helpers used by the Python standard
library (`unicodedata.category`, the regex classes `\s`, `\w`, `\d`, and
`str.lower`) are modelled as explicit executable tables below; `\w`, `\d`
and `lower` are modelled on the ASCII range (all concrete strings appearing
in this development are ASCII).

The filesystem-facing loop of `rename_pdf_files` is embedded by passing the
directory listing as an explicit list of file names: `os.path.join` with a
fixed directory is injective on names without path separators (the built
names contain none), so path equality and `os.path.exists` are modelled as
name equality and membership in the listing.
-/

namespace RenamePdf

/-- Python strings, one entry per code point. -/
abbrev PyStr := List Char

/-! ## Character tables -/

/-- Maximal intervals of the code points whose Unicode general category
begins with `C`: control (Cc), format (Cf), surrogate (Cs), private-use
(Co) and unassigned (Cn), per the Unicode 14.0.0 character database used
by CPython's `unicodedata` module. -/
def catCRanges : List (Nat × Nat) := [
  (0x0, 0x1f), (0x7f, 0x9f), (0xad, 0xad), (0x378, 0x379), (0x380, 0x383), (0x38b, 0x38b),
  (0x38d, 0x38d), (0x3a2, 0x3a2), (0x530, 0x530), (0x557, 0x558), (0x58b, 0x58c), (0x590, 0x590),
  (0x5c8, 0x5cf), (0x5eb, 0x5ee), (0x5f5, 0x605), (0x61c, 0x61c), (0x6dd, 0x6dd), (0x70e, 0x70f),
  (0x74b, 0x74c), (0x7b2, 0x7bf), (0x7fb, 0x7fc), (0x82e, 0x82f), (0x83f, 0x83f), (0x85c, 0x85d),
  (0x85f, 0x85f), (0x86b, 0x86f), (0x88f, 0x897), (0x8e2, 0x8e2), (0x984, 0x984), (0x98d, 0x98e),
  (0x991, 0x992), (0x9a9, 0x9a9), (0x9b1, 0x9b1), (0x9b3, 0x9b5), (0x9ba, 0x9bb), (0x9c5, 0x9c6),
  (0x9c9, 0x9ca), (0x9cf, 0x9d6), (0x9d8, 0x9db), (0x9de, 0x9de), (0x9e4, 0x9e5), (0x9ff, 0xa00),
  (0xa04, 0xa04), (0xa0b, 0xa0e), (0xa11, 0xa12), (0xa29, 0xa29), (0xa31, 0xa31), (0xa34, 0xa34),
  (0xa37, 0xa37), (0xa3a, 0xa3b), (0xa3d, 0xa3d), (0xa43, 0xa46), (0xa49, 0xa4a), (0xa4e, 0xa50),
  (0xa52, 0xa58), (0xa5d, 0xa5d), (0xa5f, 0xa65), (0xa77, 0xa80), (0xa84, 0xa84), (0xa8e, 0xa8e),
  (0xa92, 0xa92), (0xaa9, 0xaa9), (0xab1, 0xab1), (0xab4, 0xab4), (0xaba, 0xabb), (0xac6, 0xac6),
  (0xaca, 0xaca), (0xace, 0xacf), (0xad1, 0xadf), (0xae4, 0xae5), (0xaf2, 0xaf8), (0xb00, 0xb00),
  (0xb04, 0xb04), (0xb0d, 0xb0e), (0xb11, 0xb12), (0xb29, 0xb29), (0xb31, 0xb31), (0xb34, 0xb34),
  (0xb3a, 0xb3b), (0xb45, 0xb46), (0xb49, 0xb4a), (0xb4e, 0xb54), (0xb58, 0xb5b), (0xb5e, 0xb5e),
  (0xb64, 0xb65), (0xb78, 0xb81), (0xb84, 0xb84), (0xb8b, 0xb8d), (0xb91, 0xb91), (0xb96, 0xb98),
  (0xb9b, 0xb9b), (0xb9d, 0xb9d), (0xba0, 0xba2), (0xba5, 0xba7), (0xbab, 0xbad), (0xbba, 0xbbd),
  (0xbc3, 0xbc5), (0xbc9, 0xbc9), (0xbce, 0xbcf), (0xbd1, 0xbd6), (0xbd8, 0xbe5), (0xbfb, 0xbff),
  (0xc0d, 0xc0d), (0xc11, 0xc11), (0xc29, 0xc29), (0xc3a, 0xc3b), (0xc45, 0xc45), (0xc49, 0xc49),
  (0xc4e, 0xc54), (0xc57, 0xc57), (0xc5b, 0xc5c), (0xc5e, 0xc5f), (0xc64, 0xc65), (0xc70, 0xc76),
  (0xc8d, 0xc8d), (0xc91, 0xc91), (0xca9, 0xca9), (0xcb4, 0xcb4), (0xcba, 0xcbb), (0xcc5, 0xcc5),
  (0xcc9, 0xcc9), (0xcce, 0xcd4), (0xcd7, 0xcdc), (0xcdf, 0xcdf), (0xce4, 0xce5), (0xcf0, 0xcf0),
  (0xcf3, 0xcff), (0xd0d, 0xd0d), (0xd11, 0xd11), (0xd45, 0xd45), (0xd49, 0xd49), (0xd50, 0xd53),
  (0xd64, 0xd65), (0xd80, 0xd80), (0xd84, 0xd84), (0xd97, 0xd99), (0xdb2, 0xdb2), (0xdbc, 0xdbc),
  (0xdbe, 0xdbf), (0xdc7, 0xdc9), (0xdcb, 0xdce), (0xdd5, 0xdd5), (0xdd7, 0xdd7), (0xde0, 0xde5),
  (0xdf0, 0xdf1), (0xdf5, 0xe00), (0xe3b, 0xe3e), (0xe5c, 0xe80), (0xe83, 0xe83), (0xe85, 0xe85),
  (0xe8b, 0xe8b), (0xea4, 0xea4), (0xea6, 0xea6), (0xebe, 0xebf), (0xec5, 0xec5), (0xec7, 0xec7),
  (0xece, 0xecf), (0xeda, 0xedb), (0xee0, 0xeff), (0xf48, 0xf48), (0xf6d, 0xf70), (0xf98, 0xf98),
  (0xfbd, 0xfbd), (0xfcd, 0xfcd), (0xfdb, 0xfff), (0x10c6, 0x10c6), (0x10c8, 0x10cc),
  (0x10ce, 0x10cf), (0x1249, 0x1249), (0x124e, 0x124f), (0x1257, 0x1257), (0x1259, 0x1259),
  (0x125e, 0x125f), (0x1289, 0x1289), (0x128e, 0x128f), (0x12b1, 0x12b1), (0x12b6, 0x12b7),
  (0x12bf, 0x12bf), (0x12c1, 0x12c1), (0x12c6, 0x12c7), (0x12d7, 0x12d7), (0x1311, 0x1311),
  (0x1316, 0x1317), (0x135b, 0x135c), (0x137d, 0x137f), (0x139a, 0x139f), (0x13f6, 0x13f7),
  (0x13fe, 0x13ff), (0x169d, 0x169f), (0x16f9, 0x16ff), (0x1716, 0x171e), (0x1737, 0x173f),
  (0x1754, 0x175f), (0x176d, 0x176d), (0x1771, 0x1771), (0x1774, 0x177f), (0x17de, 0x17df),
  (0x17ea, 0x17ef), (0x17fa, 0x17ff), (0x180e, 0x180e), (0x181a, 0x181f), (0x1879, 0x187f),
  (0x18ab, 0x18af), (0x18f6, 0x18ff), (0x191f, 0x191f), (0x192c, 0x192f), (0x193c, 0x193f),
  (0x1941, 0x1943), (0x196e, 0x196f), (0x1975, 0x197f), (0x19ac, 0x19af), (0x19ca, 0x19cf),
  (0x19db, 0x19dd), (0x1a1c, 0x1a1d), (0x1a5f, 0x1a5f), (0x1a7d, 0x1a7e), (0x1a8a, 0x1a8f),
  (0x1a9a, 0x1a9f), (0x1aae, 0x1aaf), (0x1acf, 0x1aff), (0x1b4d, 0x1b4f), (0x1b7f, 0x1b7f),
  (0x1bf4, 0x1bfb), (0x1c38, 0x1c3a), (0x1c4a, 0x1c4c), (0x1c89, 0x1c8f), (0x1cbb, 0x1cbc),
  (0x1cc8, 0x1ccf), (0x1cfb, 0x1cff), (0x1f16, 0x1f17), (0x1f1e, 0x1f1f), (0x1f46, 0x1f47),
  (0x1f4e, 0x1f4f), (0x1f58, 0x1f58), (0x1f5a, 0x1f5a), (0x1f5c, 0x1f5c), (0x1f5e, 0x1f5e),
  (0x1f7e, 0x1f7f), (0x1fb5, 0x1fb5), (0x1fc5, 0x1fc5), (0x1fd4, 0x1fd5), (0x1fdc, 0x1fdc),
  (0x1ff0, 0x1ff1), (0x1ff5, 0x1ff5), (0x1fff, 0x1fff), (0x200b, 0x200f), (0x202a, 0x202e),
  (0x2060, 0x206f), (0x2072, 0x2073), (0x208f, 0x208f), (0x209d, 0x209f), (0x20c1, 0x20cf),
  (0x20f1, 0x20ff), (0x218c, 0x218f), (0x2427, 0x243f), (0x244b, 0x245f), (0x2b74, 0x2b75),
  (0x2b96, 0x2b96), (0x2cf4, 0x2cf8), (0x2d26, 0x2d26), (0x2d28, 0x2d2c), (0x2d2e, 0x2d2f),
  (0x2d68, 0x2d6e), (0x2d71, 0x2d7e), (0x2d97, 0x2d9f), (0x2da7, 0x2da7), (0x2daf, 0x2daf),
  (0x2db7, 0x2db7), (0x2dbf, 0x2dbf), (0x2dc7, 0x2dc7), (0x2dcf, 0x2dcf), (0x2dd7, 0x2dd7),
  (0x2ddf, 0x2ddf), (0x2e5e, 0x2e7f), (0x2e9a, 0x2e9a), (0x2ef4, 0x2eff), (0x2fd6, 0x2fef),
  (0x2ffc, 0x2fff), (0x3040, 0x3040), (0x3097, 0x3098), (0x3100, 0x3104), (0x3130, 0x3130),
  (0x318f, 0x318f), (0x31e4, 0x31ef), (0x321f, 0x321f), (0xa48d, 0xa48f), (0xa4c7, 0xa4cf),
  (0xa62c, 0xa63f), (0xa6f8, 0xa6ff), (0xa7cb, 0xa7cf), (0xa7d2, 0xa7d2), (0xa7d4, 0xa7d4),
  (0xa7da, 0xa7f1), (0xa82d, 0xa82f), (0xa83a, 0xa83f), (0xa878, 0xa87f), (0xa8c6, 0xa8cd),
  (0xa8da, 0xa8df), (0xa954, 0xa95e), (0xa97d, 0xa97f), (0xa9ce, 0xa9ce), (0xa9da, 0xa9dd),
  (0xa9ff, 0xa9ff), (0xaa37, 0xaa3f), (0xaa4e, 0xaa4f), (0xaa5a, 0xaa5b), (0xaac3, 0xaada),
  (0xaaf7, 0xab00), (0xab07, 0xab08), (0xab0f, 0xab10), (0xab17, 0xab1f), (0xab27, 0xab27),
  (0xab2f, 0xab2f), (0xab6c, 0xab6f), (0xabee, 0xabef), (0xabfa, 0xabff), (0xd7a4, 0xd7af),
  (0xd7c7, 0xd7ca), (0xd7fc, 0xf8ff), (0xfa6e, 0xfa6f), (0xfada, 0xfaff), (0xfb07, 0xfb12),
  (0xfb18, 0xfb1c), (0xfb37, 0xfb37), (0xfb3d, 0xfb3d), (0xfb3f, 0xfb3f), (0xfb42, 0xfb42),
  (0xfb45, 0xfb45), (0xfbc3, 0xfbd2), (0xfd90, 0xfd91), (0xfdc8, 0xfdce), (0xfdd0, 0xfdef),
  (0xfe1a, 0xfe1f), (0xfe53, 0xfe53), (0xfe67, 0xfe67), (0xfe6c, 0xfe6f), (0xfe75, 0xfe75),
  (0xfefd, 0xff00), (0xffbf, 0xffc1), (0xffc8, 0xffc9), (0xffd0, 0xffd1), (0xffd8, 0xffd9),
  (0xffdd, 0xffdf), (0xffe7, 0xffe7), (0xffef, 0xfffb), (0xfffe, 0xffff), (0x1000c, 0x1000c),
  (0x10027, 0x10027), (0x1003b, 0x1003b), (0x1003e, 0x1003e), (0x1004e, 0x1004f),
  (0x1005e, 0x1007f), (0x100fb, 0x100ff), (0x10103, 0x10106), (0x10134, 0x10136),
  (0x1018f, 0x1018f), (0x1019d, 0x1019f), (0x101a1, 0x101cf), (0x101fe, 0x1027f),
  (0x1029d, 0x1029f), (0x102d1, 0x102df), (0x102fc, 0x102ff), (0x10324, 0x1032c),
  (0x1034b, 0x1034f), (0x1037b, 0x1037f), (0x1039e, 0x1039e), (0x103c4, 0x103c7),
  (0x103d6, 0x103ff), (0x1049e, 0x1049f), (0x104aa, 0x104af), (0x104d4, 0x104d7),
  (0x104fc, 0x104ff), (0x10528, 0x1052f), (0x10564, 0x1056e), (0x1057b, 0x1057b),
  (0x1058b, 0x1058b), (0x10593, 0x10593), (0x10596, 0x10596), (0x105a2, 0x105a2),
  (0x105b2, 0x105b2), (0x105ba, 0x105ba), (0x105bd, 0x105ff), (0x10737, 0x1073f),
  (0x10756, 0x1075f), (0x10768, 0x1077f), (0x10786, 0x10786), (0x107b1, 0x107b1),
  (0x107bb, 0x107ff), (0x10806, 0x10807), (0x10809, 0x10809), (0x10836, 0x10836),
  (0x10839, 0x1083b), (0x1083d, 0x1083e), (0x10856, 0x10856), (0x1089f, 0x108a6),
  (0x108b0, 0x108df), (0x108f3, 0x108f3), (0x108f6, 0x108fa), (0x1091c, 0x1091e),
  (0x1093a, 0x1093e), (0x10940, 0x1097f), (0x109b8, 0x109bb), (0x109d0, 0x109d1),
  (0x10a04, 0x10a04), (0x10a07, 0x10a0b), (0x10a14, 0x10a14), (0x10a18, 0x10a18),
  (0x10a36, 0x10a37), (0x10a3b, 0x10a3e), (0x10a49, 0x10a4f), (0x10a59, 0x10a5f),
  (0x10aa0, 0x10abf), (0x10ae7, 0x10aea), (0x10af7, 0x10aff), (0x10b36, 0x10b38),
  (0x10b56, 0x10b57), (0x10b73, 0x10b77), (0x10b92, 0x10b98), (0x10b9d, 0x10ba8),
  (0x10bb0, 0x10bff), (0x10c49, 0x10c7f), (0x10cb3, 0x10cbf), (0x10cf3, 0x10cf9),
  (0x10d28, 0x10d2f), (0x10d3a, 0x10e5f), (0x10e7f, 0x10e7f), (0x10eaa, 0x10eaa),
  (0x10eae, 0x10eaf), (0x10eb2, 0x10eff), (0x10f28, 0x10f2f), (0x10f5a, 0x10f6f),
  (0x10f8a, 0x10faf), (0x10fcc, 0x10fdf), (0x10ff7, 0x10fff), (0x1104e, 0x11051),
  (0x11076, 0x1107e), (0x110bd, 0x110bd), (0x110c3, 0x110cf), (0x110e9, 0x110ef),
  (0x110fa, 0x110ff), (0x11135, 0x11135), (0x11148, 0x1114f), (0x11177, 0x1117f),
  (0x111e0, 0x111e0), (0x111f5, 0x111ff), (0x11212, 0x11212), (0x1123f, 0x1127f),
  (0x11287, 0x11287), (0x11289, 0x11289), (0x1128e, 0x1128e), (0x1129e, 0x1129e),
  (0x112aa, 0x112af), (0x112eb, 0x112ef), (0x112fa, 0x112ff), (0x11304, 0x11304),
  (0x1130d, 0x1130e), (0x11311, 0x11312), (0x11329, 0x11329), (0x11331, 0x11331),
  (0x11334, 0x11334), (0x1133a, 0x1133a), (0x11345, 0x11346), (0x11349, 0x1134a),
  (0x1134e, 0x1134f), (0x11351, 0x11356), (0x11358, 0x1135c), (0x11364, 0x11365),
  (0x1136d, 0x1136f), (0x11375, 0x113ff), (0x1145c, 0x1145c), (0x11462, 0x1147f),
  (0x114c8, 0x114cf), (0x114da, 0x1157f), (0x115b6, 0x115b7), (0x115de, 0x115ff),
  (0x11645, 0x1164f), (0x1165a, 0x1165f), (0x1166d, 0x1167f), (0x116ba, 0x116bf),
  (0x116ca, 0x116ff), (0x1171b, 0x1171c), (0x1172c, 0x1172f), (0x11747, 0x117ff),
  (0x1183c, 0x1189f), (0x118f3, 0x118fe), (0x11907, 0x11908), (0x1190a, 0x1190b),
  (0x11914, 0x11914), (0x11917, 0x11917), (0x11936, 0x11936), (0x11939, 0x1193a),
  (0x11947, 0x1194f), (0x1195a, 0x1199f), (0x119a8, 0x119a9), (0x119d8, 0x119d9),
  (0x119e5, 0x119ff), (0x11a48, 0x11a4f), (0x11aa3, 0x11aaf), (0x11af9, 0x11bff),
  (0x11c09, 0x11c09), (0x11c37, 0x11c37), (0x11c46, 0x11c4f), (0x11c6d, 0x11c6f),
  (0x11c90, 0x11c91), (0x11ca8, 0x11ca8), (0x11cb7, 0x11cff), (0x11d07, 0x11d07),
  (0x11d0a, 0x11d0a), (0x11d37, 0x11d39), (0x11d3b, 0x11d3b), (0x11d3e, 0x11d3e),
  (0x11d48, 0x11d4f), (0x11d5a, 0x11d5f), (0x11d66, 0x11d66), (0x11d69, 0x11d69),
  (0x11d8f, 0x11d8f), (0x11d92, 0x11d92), (0x11d99, 0x11d9f), (0x11daa, 0x11edf),
  (0x11ef9, 0x11faf), (0x11fb1, 0x11fbf), (0x11ff2, 0x11ffe), (0x1239a, 0x123ff),
  (0x1246f, 0x1246f), (0x12475, 0x1247f), (0x12544, 0x12f8f), (0x12ff3, 0x12fff),
  (0x1342f, 0x143ff), (0x14647, 0x167ff), (0x16a39, 0x16a3f), (0x16a5f, 0x16a5f),
  (0x16a6a, 0x16a6d), (0x16abf, 0x16abf), (0x16aca, 0x16acf), (0x16aee, 0x16aef),
  (0x16af6, 0x16aff), (0x16b46, 0x16b4f), (0x16b5a, 0x16b5a), (0x16b62, 0x16b62),
  (0x16b78, 0x16b7c), (0x16b90, 0x16e3f), (0x16e9b, 0x16eff), (0x16f4b, 0x16f4e),
  (0x16f88, 0x16f8e), (0x16fa0, 0x16fdf), (0x16fe5, 0x16fef), (0x16ff2, 0x16fff),
  (0x187f8, 0x187ff), (0x18cd6, 0x18cff), (0x18d09, 0x1afef), (0x1aff4, 0x1aff4),
  (0x1affc, 0x1affc), (0x1afff, 0x1afff), (0x1b123, 0x1b14f), (0x1b153, 0x1b163),
  (0x1b168, 0x1b16f), (0x1b2fc, 0x1bbff), (0x1bc6b, 0x1bc6f), (0x1bc7d, 0x1bc7f),
  (0x1bc89, 0x1bc8f), (0x1bc9a, 0x1bc9b), (0x1bca0, 0x1ceff), (0x1cf2e, 0x1cf2f),
  (0x1cf47, 0x1cf4f), (0x1cfc4, 0x1cfff), (0x1d0f6, 0x1d0ff), (0x1d127, 0x1d128),
  (0x1d173, 0x1d17a), (0x1d1eb, 0x1d1ff), (0x1d246, 0x1d2df), (0x1d2f4, 0x1d2ff),
  (0x1d357, 0x1d35f), (0x1d379, 0x1d3ff), (0x1d455, 0x1d455), (0x1d49d, 0x1d49d),
  (0x1d4a0, 0x1d4a1), (0x1d4a3, 0x1d4a4), (0x1d4a7, 0x1d4a8), (0x1d4ad, 0x1d4ad),
  (0x1d4ba, 0x1d4ba), (0x1d4bc, 0x1d4bc), (0x1d4c4, 0x1d4c4), (0x1d506, 0x1d506),
  (0x1d50b, 0x1d50c), (0x1d515, 0x1d515), (0x1d51d, 0x1d51d), (0x1d53a, 0x1d53a),
  (0x1d53f, 0x1d53f), (0x1d545, 0x1d545), (0x1d547, 0x1d549), (0x1d551, 0x1d551),
  (0x1d6a6, 0x1d6a7), (0x1d7cc, 0x1d7cd), (0x1da8c, 0x1da9a), (0x1daa0, 0x1daa0),
  (0x1dab0, 0x1deff), (0x1df1f, 0x1dfff), (0x1e007, 0x1e007), (0x1e019, 0x1e01a),
  (0x1e022, 0x1e022), (0x1e025, 0x1e025), (0x1e02b, 0x1e0ff), (0x1e12d, 0x1e12f),
  (0x1e13e, 0x1e13f), (0x1e14a, 0x1e14d), (0x1e150, 0x1e28f), (0x1e2af, 0x1e2bf),
  (0x1e2fa, 0x1e2fe), (0x1e300, 0x1e7df), (0x1e7e7, 0x1e7e7), (0x1e7ec, 0x1e7ec),
  (0x1e7ef, 0x1e7ef), (0x1e7ff, 0x1e7ff), (0x1e8c5, 0x1e8c6), (0x1e8d7, 0x1e8ff),
  (0x1e94c, 0x1e94f), (0x1e95a, 0x1e95d), (0x1e960, 0x1ec70), (0x1ecb5, 0x1ed00),
  (0x1ed3e, 0x1edff), (0x1ee04, 0x1ee04), (0x1ee20, 0x1ee20), (0x1ee23, 0x1ee23),
  (0x1ee25, 0x1ee26), (0x1ee28, 0x1ee28), (0x1ee33, 0x1ee33), (0x1ee38, 0x1ee38),
  (0x1ee3a, 0x1ee3a), (0x1ee3c, 0x1ee41), (0x1ee43, 0x1ee46), (0x1ee48, 0x1ee48),
  (0x1ee4a, 0x1ee4a), (0x1ee4c, 0x1ee4c), (0x1ee50, 0x1ee50), (0x1ee53, 0x1ee53),
  (0x1ee55, 0x1ee56), (0x1ee58, 0x1ee58), (0x1ee5a, 0x1ee5a), (0x1ee5c, 0x1ee5c),
  (0x1ee5e, 0x1ee5e), (0x1ee60, 0x1ee60), (0x1ee63, 0x1ee63), (0x1ee65, 0x1ee66),
  (0x1ee6b, 0x1ee6b), (0x1ee73, 0x1ee73), (0x1ee78, 0x1ee78), (0x1ee7d, 0x1ee7d),
  (0x1ee7f, 0x1ee7f), (0x1ee8a, 0x1ee8a), (0x1ee9c, 0x1eea0), (0x1eea4, 0x1eea4),
  (0x1eeaa, 0x1eeaa), (0x1eebc, 0x1eeef), (0x1eef2, 0x1efff), (0x1f02c, 0x1f02f),
  (0x1f094, 0x1f09f), (0x1f0af, 0x1f0b0), (0x1f0c0, 0x1f0c0), (0x1f0d0, 0x1f0d0),
  (0x1f0f6, 0x1f0ff), (0x1f1ae, 0x1f1e5), (0x1f203, 0x1f20f), (0x1f23c, 0x1f23f),
  (0x1f249, 0x1f24f), (0x1f252, 0x1f25f), (0x1f266, 0x1f2ff), (0x1f6d8, 0x1f6dc),
  (0x1f6ed, 0x1f6ef), (0x1f6fd, 0x1f6ff), (0x1f774, 0x1f77f), (0x1f7d9, 0x1f7df),
  (0x1f7ec, 0x1f7ef), (0x1f7f1, 0x1f7ff), (0x1f80c, 0x1f80f), (0x1f848, 0x1f84f),
  (0x1f85a, 0x1f85f), (0x1f888, 0x1f88f), (0x1f8ae, 0x1f8af), (0x1f8b2, 0x1f8ff),
  (0x1fa54, 0x1fa5f), (0x1fa6e, 0x1fa6f), (0x1fa75, 0x1fa77), (0x1fa7d, 0x1fa7f),
  (0x1fa87, 0x1fa8f), (0x1faad, 0x1faaf), (0x1fabb, 0x1fabf), (0x1fac6, 0x1facf),
  (0x1fada, 0x1fadf), (0x1fae8, 0x1faef), (0x1faf7, 0x1faff), (0x1fb93, 0x1fb93),
  (0x1fbcb, 0x1fbef), (0x1fbfa, 0x1ffff), (0x2a6e0, 0x2a6ff), (0x2b739, 0x2b73f),
  (0x2b81e, 0x2b81f), (0x2cea2, 0x2ceaf), (0x2ebe1, 0x2f7ff), (0x2fa1e, 0x2ffff),
  (0x3134b, 0xe00ff), (0xe01f0, 0x10ffff)]

/-- Models `unicodedata.category(ch)[0] == "C"` (line 107 of the source):
true exactly on the Cc, Cf, Cs, Co and Cn code points of `catCRanges`.
The first branch inlines the only two intervals of the table below U+00AD
(`(0x0, 0x1f)` and `(0x7f, 0x9f)`) so that evaluation on ASCII input does
not traverse the whole table. -/
def isCatC (c : Char) : Bool :=
  let n := c.toNat
  if n < 0xAD then n < 0x20 || (0x7F ≤ n && n ≤ 0x9F)
  else catCRanges.any (fun r => r.1 ≤ n && n ≤ r.2)

/-- Models the Python regex class `\s` and `str.strip()` whitespace: the
Unicode whitespace code points recognised by CPython. -/
def isPySpace (c : Char) : Bool :=
  let n := c.toNat
  (0x9 ≤ n && n ≤ 0xD) || (0x1C ≤ n && n ≤ 0x1F) || n = 0x20 ||
  n = 0x85 || n = 0xA0 || n = 0x1680 || (0x2000 ≤ n && n ≤ 0x200A) ||
  n = 0x2028 || n = 0x2029 || n = 0x202F || n = 0x205F || n = 0x3000

/-- Models the Python regex class `\w` (word character) on the ASCII range:
letters, digits and underscore.  Non-ASCII word characters are not
enumerated. -/
def isWordChar (c : Char) : Bool :=
  c.isAlphanum || c = '_'

/-- The character class kept by the regex on line 111 of the source,
`[^\w\s\-\—\–\.,;:!?\x27\x22]` (everything else is deleted): word
characters, whitespace, hyphen, em dash (U+2014), en dash (U+2013), and the
punctuation `. , ; : ! ?`, apostrophe (U+0027) and double quote (U+0022). -/
def keepChar (c : Char) : Bool :=
  isWordChar c || isPySpace c || c = '-' || c.toNat = 0x2014 || c.toNat = 0x2013 ||
  c = '.' || c = ',' || c = ';' || c = ':' || c = '!' || c = '?' ||
  c.toNat = 0x27 || c.toNat = 0x22

/-- The Windows-reserved filename characters replaced on lines 123-125 of
the source: `<` `>` `:` `"` (0x22) `/` `\` (0x5C) `|` `?` `*`,
compared by code point. -/
def isReservedChar (c : Char) : Bool :=
  c.toNat = 0x3C || c.toNat = 0x3E || c.toNat = 0x3A || c.toNat = 0x22 ||
  c.toNat = 0x2F || c.toNat = 0x5C || c.toNat = 0x7C || c.toNat = 0x3F ||
  c.toNat = 0x2A

/-- Python truthiness of an `Optional[str]` value: `None` and the empty
string are falsy. -/
def truthyS : Option PyStr → Bool
  | none => false
  | some s => !s.isEmpty

/-! ## Generic string helpers (regex substitution, strip, split, search) -/

/-- Worker for `collapseRuns`; `prev` records whether the previous character
belonged to the class `p` (i.e. we are inside a run that has already been
replaced). -/
def collapseRunsAux (p : Char → Bool) (rep : Char) : Bool → PyStr → PyStr
  | _, [] => []
  | true, c :: cs =>
    if p c then collapseRunsAux p rep true cs
    else c :: collapseRunsAux p rep false cs
  | false, c :: cs =>
    if p c then rep :: collapseRunsAux p rep true cs
    else c :: collapseRunsAux p rep false cs

/-- Replace every maximal run of characters of class `p` by the single
character `rep`; models `re.sub(r"\s+", " ", text)` (line 109) and
`re.sub(r"_+", "_", title)` (line 128). -/
def collapseRuns (p : Char → Bool) (rep : Char) (l : PyStr) : PyStr :=
  collapseRunsAux p rep false l

/-- Remove the longest suffix of characters of class `p`. -/
def stripTail (p : Char → Bool) (l : PyStr) : PyStr :=
  (l.reverse.dropWhile p).reverse

/-- Remove the longest prefix and suffix of characters of class `p`;
models `str.strip()` (with `p := isPySpace`) and `str.strip(". ")`. -/
def stripWhile (p : Char → Bool) (l : PyStr) : PyStr :=
  stripTail p (l.dropWhile p)

/-- `leadsWith pat l` holds when `pat` is an initial segment of `l`. -/
def leadsWith : PyStr → PyStr → Bool
  | [], _ => true
  | _ :: _, [] => false
  | a :: as, b :: bs => a == b && leadsWith as bs

/-- Substring containment, models Python `pat in s`. -/
def hasSub (pat : PyStr) : PyStr → Bool
  | [] => pat.isEmpty
  | c :: rest => leadsWith pat (c :: rest) || hasSub pat rest

/-- Drop everything up to and including the first occurrence of `pat`;
`none` when `pat` does not occur. -/
def dropThroughFirst (pat : PyStr) : PyStr → Option PyStr
  | [] => none
  | c :: rest =>
    if leadsWith pat (c :: rest) then some (List.drop pat.length (c :: rest))
    else dropThroughFirst pat rest

/-- Models `s.rsplit(".pdf", 1)[0]` (line 175): everything before the last
occurrence of `".pdf"`, or `s` itself when there is none (the last
occurrence forwards is the first occurrence of the reversed pattern in the
reversed string). -/
def rsplit_pdf_base (s : PyStr) : PyStr :=
  match dropThroughFirst ((".pdf".toList).reverse) s.reverse with
  | some r => r.reverse
  | none => s

/-- Models Python `text.split(s)` for a single-character separator `'\n'`:
`splitNl "" = [""]`, separators delimit (possibly empty) fields. -/
def splitNl : PyStr → List PyStr
  | [] => [[]]
  | c :: rest =>
    if c = '\n' then [] :: splitNl rest
    else
      match splitNl rest with
      | [] => [[c]]
      | h :: t => (c :: h) :: t

/-- Decimal digit character, used for `str(counter)`. -/
def digitChar (d : Nat) : Char :=
  if d = 0 then '0' else if d = 1 then '1' else if d = 2 then '2'
  else if d = 3 then '3' else if d = 4 then '4' else if d = 5 then '5'
  else if d = 6 then '6' else if d = 7 then '7' else if d = 8 then '8'
  else '9'

/-- Worker for `natDigits`; the fuel only serves structural recursion and
any amount above the number itself is enough. -/
def natDigitsAux : Nat → Nat → List Char
  | 0, _ => []
  | fuel + 1, n =>
    if n < 10 then [digitChar n]
    else natDigitsAux fuel (n / 10) ++ [digitChar (n % 10)]

/-- Decimal representation of a natural number, models Python `str(n)`
inside the f-string on line 176. -/
def natDigits (n : Nat) : List Char :=
  natDigitsAux (n + 1) n

theorem natDigitsAux_stable :
    ∀ (f1 : Nat), ∀ (f2 n : Nat), n < f1 → n < f2 → natDigitsAux f1 n = natDigitsAux f2 n := by
  intro f1
  induction f1 with
  | zero => intro f2 n h1 _; omega
  | succ f1 ih =>
    intro f2 n h1 h2
    cases f2 with
    | zero => omega
    | succ f2 =>
      simp only [natDigitsAux]
      by_cases hn : n < 10
      · rw [if_pos hn, if_pos hn]
      · rw [if_neg hn, if_neg hn,
          ih f2 (n / 10) (by omega) (by omega)]

theorem natDigits_unfold (n : Nat) :
    natDigits n = if n < 10 then [digitChar n]
      else natDigits (n / 10) ++ [digitChar (n % 10)] := by
  show natDigitsAux (n + 1) n = _
  simp only [natDigitsAux]
  by_cases hn : n < 10
  · rw [if_pos hn, if_pos hn]
  · rw [if_neg hn, if_neg hn,
      natDigitsAux_stable n (n / 10 + 1) (n / 10) (by omega) (by omega)]
    rfl

/-! ## The source functions -/

/-- `sanitize_candidate_title` (lines 104-112): drop category-C characters,
collapse whitespace runs to a single space, delete characters outside the
kept class, and strip surrounding whitespace. -/
def sanitize_candidate_title (text : PyStr) : PyStr :=
  let t1 := text.filter (fun ch => !isCatC ch)
  let t2 := collapseRuns isPySpace ' ' t1
  let t3 := t2.filter keepChar
  stripWhile isPySpace t3

/-- `pick_title_from_lines` (lines 84-102): first-match scan of the lines.
Each branch mirrors a `continue` of the Python loop. -/
def pick_title_from_lines : List PyStr → Option PyStr
  | [] => none
  | raw :: rest =>
    let line := stripWhile isPySpace raw
    if line = [] ∨ line.length < 3 ∨ 5 < line.count '.' then
      pick_title_from_lines rest
    else
      let low := line.map Char.toLower
      if (line ≠ [] ∧ line.all Char.isDigit = true) ∨ low.contains '@' = true ∨
          hasSub ("email".toList) low = true ∨ hasSub ("author".toList) low = true then
        pick_title_from_lines rest
      else
        if 5 < line.length ∧ line.length < 200 then
          let cleaned := sanitize_candidate_title line
          if 5 < cleaned.length ∧ 0 < cleaned.count ' ' then
            some (stripWhile isPySpace cleaned)
          else pick_title_from_lines rest
        else pick_title_from_lines rest

/-- `normalize_filename` (lines 114-141). -/
def normalize_filename (title : Option PyStr) : PyStr :=
  let t0 : PyStr :=
    match title with
    | none => "untitled".toList
    | some t => if t = [] then "untitled".toList else t
  let t1 := sanitize_candidate_title t0
  let t2 := t1.map (fun c => if isReservedChar c then '_' else c)
  let t3 := collapseRuns (fun c => c = '_') '_' t2
  let t4 := t3.take 150
  let t5 := stripWhile (fun c => c = '.' || c = ' ') t4
  if t5 = [] then "untitled".toList else t5

/-- A PDF document as seen by the two extraction backends.  `openOk` is
whether `PdfReader` succeeds (line 14), `metaRaises` whether reading the
metadata title raises inside the outer `try` (lines 17-33), `metaTitle` the
metadata title obtained by the accessor cascade (`none` when absent),
`pages` the per-page text of the PyPDF2 backend (`none` for a page whose
`extract_text` raises), and `plumberOk` / `plumberPages` the same for the
pdfplumber backend (lines 60-82). -/
structure PdfDocument where
  openOk : Bool
  metaRaises : Bool
  metaTitle : Option PyStr
  pages : List (Option PyStr)
  plumberOk : Bool
  plumberPages : List (Option PyStr)

/-- The page-scanning loop shared by both extractors (lines 38-54 and
64-78): skip failed or empty pages, split into lines, keep the first
`maxLines`, and return the first truthy candidate. -/
def scan_pages (pages : List (Option PyStr)) (maxLines : Nat) : Option PyStr :=
  match pages with
  | [] => none
  | text? :: rest =>
    match text? with
    | none => scan_pages rest maxLines
    | some text =>
      if text = [] then scan_pages rest maxLines
      else
        let cand := pick_title_from_lines ((splitNl text).take maxLines)
        if truthyS cand then cand else scan_pages rest maxLines

/-- `extract_title_from_pdf_pypdf2` (lines 11-58).  An open failure or an
exception while reading the metadata lands in the `except` on line 55 and
yields `None` (in particular the page scan is skipped); a truthy metadata
title returns its sanitized form; otherwise the first three pages are
scanned with at most 20 lines each. -/
def extract_title_from_pdf_pypdf2 (d : PdfDocument) : Option PyStr :=
  if d.openOk = false ∨ d.metaRaises = true then none
  else
    match d.metaTitle with
    | some t => if t ≠ [] then some (sanitize_candidate_title t) else scan_pages (d.pages.take 3) 20
    | none => scan_pages (d.pages.take 3) 20

/-- `extract_title_from_pdf_pdfplumber` (lines 60-82): first two pages,
at most 30 lines each. -/
def extract_title_from_pdf_pdfplumber (d : PdfDocument) : Option PyStr :=
  if d.plumberOk = false then none
  else scan_pages (d.plumberPages.take 2) 30

/-- The title-resolution step of `rename_pdf_files` (lines 157-162):
`title = extract_title_from_pdf_pypdf2(path)`, then
`if not title: title = extract_title_from_pdf_pdfplumber(path)`. -/
def resolve_title (d : PdfDocument) : Option PyStr :=
  let title := extract_title_from_pdf_pypdf2 d
  if truthyS title then title else extract_title_from_pdf_pdfplumber d

/-- The collision loop of `rename_pdf_files` (lines 168-179).  `orig` is
`original_new_filename`, `current` the file's current name, `existing` the
directory listing; `fuel` bounds the number of iterations (the wrapper
passes enough fuel for the loop to exit by its own condition). -/
def collision_loop (orig current : PyStr) (existing : List PyStr) :
    Nat → Nat → PyStr → PyStr
  | 0, _, nf => nf
  | fuel + 1, counter, nf =>
    if nf ≠ current ∧ nf ∈ existing then
      collision_loop orig current existing fuel (counter + 1)
        (rsplit_pdf_base orig ++ '_' :: natDigits counter ++ ".pdf".toList)
    else nf

/-- Filename construction of `rename_pdf_files` (lines 165-181):
normalize the title, append `".pdf"`, then run the collision loop starting
at `counter = 1`. -/
def build_filename (title : Option PyStr) (existing : List PyStr) (current : PyStr) : PyStr :=
  let nf := normalize_filename title ++ ".pdf".toList
  collision_loop nf current existing (existing.length + 1) 1 nf

/-- The rename decision on lines 183-194: rename only when the built name
differs from the current one (`new_path != original_path`). -/
def rename_decision (title : Option PyStr) (existing : List PyStr) (current : PyStr) :
    Option PyStr :=
  let nf := build_filename title existing current
  if nf = current then none else some nf

/-- The name tested at iteration `n` of the collision loop: the plain
`base ++ ".pdf"` for `n = 0`, and `base_n.pdf` for `n ≥ 1`. -/
def candidate (base : PyStr) (n : Nat) : PyStr :=
  if n = 0 then base ++ ".pdf".toList
  else base ++ '_' :: natDigits n ++ ".pdf".toList

/-- LineHeuristic acceptance, written from the specification's contract
(spec section 4.2): trimmed length at least 3, at most five dots, not
purely numeric, no `@` / `email` / `author` in the lowercased line, trimmed
length strictly between 5 and 200, sanitized length above 5 with at least
one space.  Used only to compare `pick_title_from_lines` against the
specification. -/
def line_qualifies (raw : PyStr) : Prop :=
  3 ≤ (stripWhile isPySpace raw).length ∧
  (stripWhile isPySpace raw).count '.' ≤ 5 ∧
  ¬(stripWhile isPySpace raw ≠ [] ∧ (stripWhile isPySpace raw).all Char.isDigit = true) ∧
  ((stripWhile isPySpace raw).map Char.toLower).contains '@' = false ∧
  hasSub ("email".toList) ((stripWhile isPySpace raw).map Char.toLower) = false ∧
  hasSub ("author".toList) ((stripWhile isPySpace raw).map Char.toLower) = false ∧
  5 < (stripWhile isPySpace raw).length ∧ (stripWhile isPySpace raw).length < 200 ∧
  5 < (sanitize_candidate_title (stripWhile isPySpace raw)).length ∧
  0 < (sanitize_candidate_title (stripWhile isPySpace raw)).count ' '

instance (raw : PyStr) : Decidable (line_qualifies raw) := by
  unfold line_qualifies; infer_instance

/-- LineHeuristic from the specification's words (spec section 4.2): the
first qualifying line, sanitized and trimmed.  Used only to compare with
`pick_title_from_lines`. -/
def pickTitle_spec (lines : List PyStr) : Option PyStr :=
  (lines.find? (fun raw => decide (line_qualifies raw))).map
    (fun raw => sanitize_candidate_title (stripWhile isPySpace raw))

/-! ## Helper lemmas: runs, strip, membership -/

/-- No two adjacent characters of class `p`. -/
def noAdjPair (p : Char → Bool) : PyStr → Bool
  | [] => true
  | [_] => true
  | a :: b :: rest => (!(p a && p b)) && noAdjPair p (b :: rest)

theorem noAdjPair_cons_iff (p : Char → Bool) (a : Char) (l : PyStr) :
    noAdjPair p (a :: l) = true ↔
      (noAdjPair p l = true ∧ ∀ x, l.head? = some x → (p a && p x) = false) := by
  cases l with
  | nil => simp [noAdjPair]
  | cons b rest =>
    simp only [noAdjPair, Bool.and_eq_true, Bool.not_eq_true', List.head?_cons]
    constructor
    · rintro ⟨h1, h2⟩
      exact ⟨h2, fun x hx => by cases hx; exact h1⟩
    · rintro ⟨h1, h2⟩
      exact ⟨h2 b rfl, h1⟩

theorem noAdjPair_tail (p : Char → Bool) (a : Char) (l : PyStr)
    (h : noAdjPair p (a :: l) = true) : noAdjPair p l = true :=
  ((noAdjPair_cons_iff p a l).1 h).1

theorem noAdjPair_append_right (p : Char → Bool) (x y : PyStr)
    (h : noAdjPair p (x ++ y) = true) : noAdjPair p y = true := by
  induction x with
  | nil => exact h
  | cons a x ih => exact ih (noAdjPair_tail p a (x ++ y) h)

theorem noAdjPair_append_left (p : Char → Bool) (x y : PyStr)
    (h : noAdjPair p (x ++ y) = true) : noAdjPair p x = true := by
  induction x with
  | nil => rfl
  | cons a x ih =>
    rcases (noAdjPair_cons_iff p a (x ++ y)).1 h with ⟨h1, h2⟩
    refine (noAdjPair_cons_iff p a x).2 ⟨ih h1, fun c hc => h2 c ?_⟩
    cases x with
    | nil => cases hc
    | cons b rest => cases hc; rfl

theorem mem_collapseRunsAux (p : Char → Bool) (rep : Char) :
    ∀ (prev : Bool) (l : PyStr) (c : Char), c ∈ collapseRunsAux p rep prev l →
      c = rep ∨ (c ∈ l ∧ p c = false) := by
  intro prev l
  induction l generalizing prev with
  | nil => intro c h; cases prev <;> cases h
  | cons a rest ih =>
    intro c h
    have step : ∀ x, x = rep ∨ (x ∈ rest ∧ p x = false) →
        x = rep ∨ (x ∈ a :: rest ∧ p x = false) := by
      rintro x (h' | ⟨hm, hp⟩)
      · exact Or.inl h'
      · exact Or.inr ⟨List.mem_cons_of_mem a hm, hp⟩
    cases prev <;> cases hpa : p a <;> simp [collapseRunsAux, hpa] at h
    · rcases h with rfl | h
      · exact Or.inr ⟨List.mem_cons_self _ _, hpa⟩
      · exact step c (ih false c h)
    · rcases h with rfl | h
      · exact Or.inl rfl
      · exact step c (ih true c h)
    · rcases h with rfl | h
      · exact Or.inr ⟨List.mem_cons_self _ _, hpa⟩
      · exact step c (ih false c h)
    · exact step c (ih true c h)

theorem mem_collapseRuns (p : Char → Bool) (rep : Char) (l : PyStr) (c : Char)
    (h : c ∈ collapseRuns p rep l) : c = rep ∨ (c ∈ l ∧ p c = false) :=
  mem_collapseRunsAux p rep false l c h

theorem head_collapseRunsAux_true (p : Char → Bool) (rep : Char) :
    ∀ (l : PyStr) (c : Char), (collapseRunsAux p rep true l).head? = some c →
      p c = false := by
  intro l
  induction l with
  | nil => intro c h; cases h
  | cons a rest ih =>
    intro c h
    cases hpa : p a <;> simp [collapseRunsAux, hpa] at h
    · exact h ▸ hpa
    · exact ih c h

theorem noAdjPair_collapseRunsAux (p : Char → Bool) (rep : Char) :
    ∀ (l : PyStr) (prev : Bool), noAdjPair p (collapseRunsAux p rep prev l) = true := by
  intro l
  induction l with
  | nil => intro prev; cases prev <;> rfl
  | cons a rest ih =>
    intro prev
    cases prev <;> cases hpa : p a <;> simp only [collapseRunsAux, hpa] <;>
      simp only [Bool.false_eq_true, if_false, if_true]
    · exact (noAdjPair_cons_iff p a _).2 ⟨ih false, fun x _ => by rw [hpa, Bool.false_and]⟩
    · refine (noAdjPair_cons_iff p rep _).2 ⟨ih true, fun x hx => ?_⟩
      rw [head_collapseRunsAux_true p rep rest x hx, Bool.and_false]
    · exact (noAdjPair_cons_iff p a _).2 ⟨ih false, fun x _ => by rw [hpa, Bool.false_and]⟩
    · exact ih true

theorem collapseRunsAux_eq_self (p : Char → Bool) (rep : Char) :
    ∀ (l : PyStr) (prev : Bool),
      (∀ c ∈ l, p c = true → c = rep) → noAdjPair p l = true →
      (prev = true → ∀ c, l.head? = some c → p c = false) →
      collapseRunsAux p rep prev l = l := by
  intro l
  induction l with
  | nil => intro prev _ _ _; cases prev <;> rfl
  | cons a rest ih =>
    intro prev hchars hadj hhead
    have htail : collapseRunsAux p rep false rest = rest :=
      ih false (fun c hc hpc => hchars c (List.mem_cons_of_mem a hc) hpc)
        (noAdjPair_tail p a rest hadj) (by intro h; cases h)
    have htailT : p a = true → collapseRunsAux p rep true rest = rest := by
      intro hpa
      refine ih true (fun c hc hpc => hchars c (List.mem_cons_of_mem a hc) hpc)
        (noAdjPair_tail p a rest hadj) (fun _ c hc => ?_)
      have := ((noAdjPair_cons_iff p a rest).1 hadj).2 c hc
      rcases Bool.eq_false_or_eq_true (p c) with h | h
      · rw [hpa, h] at this; cases this
      · exact h
    cases prev
    · cases hpa : p a <;> simp only [collapseRunsAux, hpa] <;>
        simp only [Bool.false_eq_true, if_false, if_true]
      · rw [htail]
      · rw [hchars a (List.mem_cons_self a rest) hpa, htailT hpa]
    · have hpa : p a = false := hhead rfl a rfl
      simp only [collapseRunsAux, hpa]
      simp only [Bool.false_eq_true, if_false]
      rw [htail]


theorem head_dropWhile (p : Char → Bool) (l : PyStr) (c : Char)
    (h : (l.dropWhile p).head? = some c) : p c = false := by
  have := List.head?_dropWhile_not p l
  rw [h] at this
  exact this

theorem mem_dropWhile (p : Char → Bool) (l : PyStr) (c : Char)
    (h : c ∈ l.dropWhile p) : c ∈ l :=
  (List.dropWhile_sublist p).mem h

theorem stripTail_append_junk (p : Char → Bool) (l : PyStr) :
    l = stripTail p l ++ (l.reverse.takeWhile p).reverse := by
  conv_lhs => rw [← List.reverse_reverse l, ← List.takeWhile_append_dropWhile p l.reverse]
  rw [List.reverse_append]
  rfl

theorem mem_stripTail (p : Char → Bool) (l : PyStr) (c : Char)
    (h : c ∈ stripTail p l) : c ∈ l := by
  unfold stripTail at h
  rw [List.mem_reverse] at h
  exact List.mem_reverse.1 (mem_dropWhile p l.reverse c h)

theorem mem_stripWhile (p : Char → Bool) (l : PyStr) (c : Char)
    (h : c ∈ stripWhile p l) : c ∈ l :=
  mem_dropWhile p l c (mem_stripTail p (l.dropWhile p) c h)

theorem stripTail_head (p : Char → Bool) (l : PyStr) (c : Char)
    (h : (stripTail p l).head? = some c) : l.head? = some c := by
  have hd := stripTail_append_junk p l
  cases hst : stripTail p l with
  | nil => rw [hst] at h; cases h
  | cons x xs =>
    rw [hst] at h hd
    rw [hd]
    simpa using h

theorem stripWhile_head (p : Char → Bool) (l : PyStr) (c : Char)
    (h : (stripWhile p l).head? = some c) : p c = false :=
  head_dropWhile p l c (stripTail_head p (l.dropWhile p) c h)

theorem stripTail_getLast (p : Char → Bool) (l : PyStr) (c : Char)
    (h : (stripTail p l).getLast? = some c) : p c = false := by
  unfold stripTail at h
  rw [List.getLast?_reverse] at h
  exact head_dropWhile p l.reverse c h

theorem stripWhile_getLast (p : Char → Bool) (l : PyStr) (c : Char)
    (h : (stripWhile p l).getLast? = some c) : p c = false :=
  stripTail_getLast p (l.dropWhile p) c h

theorem dropWhile_eq_self_of_head (p : Char → Bool) (l : PyStr)
    (h : ∀ c, l.head? = some c → p c = false) : l.dropWhile p = l := by
  cases l with
  | nil => rfl
  | cons a rest =>
    have := h a rfl
    simp [List.dropWhile_cons, this]

theorem stripTail_eq_self_of_getLast (p : Char → Bool) (l : PyStr)
    (h : ∀ c, l.getLast? = some c → p c = false) : stripTail p l = l := by
  unfold stripTail
  rw [dropWhile_eq_self_of_head p l.reverse, List.reverse_reverse]
  intro c hc
  rw [List.head?_reverse] at hc
  exact h c hc

theorem stripWhile_eq_self (p : Char → Bool) (l : PyStr)
    (hh : ∀ c, l.head? = some c → p c = false)
    (hl : ∀ c, l.getLast? = some c → p c = false) : stripWhile p l = l := by
  unfold stripWhile
  rw [dropWhile_eq_self_of_head p l hh]
  exact stripTail_eq_self_of_getLast p l hl

theorem stripWhile_idem (p : Char → Bool) (l : PyStr) :
    stripWhile p (stripWhile p l) = stripWhile p l :=
  stripWhile_eq_self p (stripWhile p l)
    (fun c hc => stripWhile_head p l c hc)
    (fun c hc => stripWhile_getLast p l c hc)

theorem stripWhile_length_le (p : Char → Bool) (l : PyStr) :
    (stripWhile p l).length ≤ l.length := by
  have h1 : (stripTail p (l.dropWhile p)).length ≤ (l.dropWhile p).length := by
    unfold stripTail
    rw [List.length_reverse]
    calc ((l.dropWhile p).reverse.dropWhile p).length
        ≤ (l.dropWhile p).reverse.length := (List.dropWhile_sublist p).length_le
      _ = (l.dropWhile p).length := List.length_reverse _
  exact le_trans h1 (List.dropWhile_sublist p).length_le

/-! ## Sanitizer lemmas -/

theorem sanitize_chars (x : PyStr) (c : Char) (h : c ∈ sanitize_candidate_title x) :
    isCatC c = false ∧ keepChar c = true ∧ (isPySpace c = true → c = ' ') := by
  simp only [sanitize_candidate_title] at h
  have h3 := mem_stripWhile _ _ _ h
  have hkeep : keepChar c = true := (List.mem_filter.1 h3).2
  have h2 : c ∈ collapseRuns isPySpace ' ' (x.filter (fun ch => !isCatC ch)) :=
    (List.mem_filter.1 h3).1
  rcases mem_collapseRuns _ _ _ _ h2 with rfl | ⟨hm, hsp⟩
  · exact ⟨by decide, hkeep, fun _ => rfl⟩
  · have : (!isCatC c) = true := (List.mem_filter.1 hm).2
    refine ⟨by simpa using this, hkeep, fun hc => ?_⟩
    rw [hsp] at hc; cases hc

/-- Normal form preserved by `sanitize_candidate_title`: only kept,
non-category-C characters, the only whitespace is a single interior space
at a time, and no surrounding whitespace. -/
structure IsNormal (l : PyStr) : Prop where
  chars : ∀ c ∈ l, isCatC c = false ∧ keepChar c = true ∧ (isPySpace c = true → c = ' ')
  noAdj : noAdjPair isPySpace l = true
  headOk : ∀ c, l.head? = some c → isPySpace c = false
  lastOk : ∀ c, l.getLast? = some c → isPySpace c = false

theorem sanitize_of_normal (l : PyStr) (h : IsNormal l) :
    sanitize_candidate_title l = l := by
  simp only [sanitize_candidate_title]
  have h1 : l.filter (fun ch => !isCatC ch) = l :=
    List.filter_eq_self.2 (fun a ha => by rw [(h.chars a ha).1]; rfl)
  rw [h1]
  have h2 : collapseRuns isPySpace ' ' l = l :=
    collapseRunsAux_eq_self isPySpace ' ' l false
      (fun c hc hp => (h.chars c hc).2.2 hp) h.noAdj (by intro hf; cases hf)
  rw [h2]
  have h3 : l.filter keepChar = l :=
    List.filter_eq_self.2 (fun a ha => (h.chars a ha).2.1)
  rw [h3]
  exact stripWhile_eq_self isPySpace l h.headOk h.lastOk

theorem sanitize_eq_strip_collapse (x : PyStr)
    (hkeep : ∀ c ∈ x, keepChar c = true) :
    sanitize_candidate_title x =
      stripWhile isPySpace (collapseRuns isPySpace ' ' (x.filter (fun ch => !isCatC ch))) := by
  simp only [sanitize_candidate_title]
  congr 1
  refine List.filter_eq_self.2 (fun a ha => ?_)
  rcases mem_collapseRuns _ _ _ _ ha with rfl | ⟨hm, _⟩
  · decide
  · exact hkeep a (List.mem_filter.1 hm).1

theorem normal_sanitize_sanitize (x : PyStr) :
    IsNormal (sanitize_candidate_title (sanitize_candidate_title x)) := by
  set x1 := sanitize_candidate_title x with hx1
  have hkeep : ∀ c ∈ x1, keepChar c = true := fun c hc => (sanitize_chars x c hc).2.1
  have hrw := sanitize_eq_strip_collapse x1 hkeep
  set w := collapseRuns isPySpace ' ' (x1.filter (fun ch => !isCatC ch)) with hw
  refine ⟨fun c hc => sanitize_chars x1 c hc, ?_, ?_, ?_⟩
  · rw [hrw]
    have hnw : noAdjPair isPySpace w = true := noAdjPair_collapseRunsAux _ _ _ _
    have hdw : noAdjPair isPySpace (w.dropWhile isPySpace) = true := by
      have := List.takeWhile_append_dropWhile isPySpace w
      exact noAdjPair_append_right isPySpace _ _ (by rw [this]; exact hnw)
    unfold stripWhile
    have hj := stripTail_append_junk isPySpace (w.dropWhile isPySpace)
    exact noAdjPair_append_left isPySpace _ _ (by rw [← hj]; exact hdw)
  · intro c hc
    rw [hrw] at hc
    exact stripWhile_head _ _ _ hc
  · intro c hc
    rw [hrw] at hc
    exact stripWhile_getLast _ _ _ hc

theorem sanitize_strip (x : PyStr) :
    stripWhile isPySpace (sanitize_candidate_title x) = sanitize_candidate_title x := by
  simp only [sanitize_candidate_title]
  exact stripWhile_idem isPySpace _

theorem sanitize_head (x : PyStr) (c : Char)
    (h : (sanitize_candidate_title x).head? = some c) : isPySpace c = false := by
  simp only [sanitize_candidate_title] at h
  exact stripWhile_head _ _ _ h

theorem sanitize_getLast (x : PyStr) (c : Char)
    (h : (sanitize_candidate_title x).getLast? = some c) : isPySpace c = false := by
  simp only [sanitize_candidate_title] at h
  exact stripWhile_getLast _ _ _ h

/-! ## Line-heuristic lemmas -/

theorem pick_cons (raw : PyStr) (rest : List PyStr) :
    pick_title_from_lines (raw :: rest) =
      if line_qualifies raw then
        some (sanitize_candidate_title (stripWhile isPySpace raw))
      else pick_title_from_lines rest := by
  simp only [pick_title_from_lines]
  by_cases hq : line_qualifies raw
  · obtain ⟨h1, h2, h3, h4, h5, h6, h7, h8, h9, h10⟩ := hq
    have hA : ¬(stripWhile isPySpace raw = [] ∨ (stripWhile isPySpace raw).length < 3 ∨
        5 < (stripWhile isPySpace raw).count '.') := by
      push_neg
      refine ⟨fun he => ?_, by omega, by omega⟩
      rw [he] at h1; simp at h1
    have hB : ¬((stripWhile isPySpace raw ≠ [] ∧
          (stripWhile isPySpace raw).all Char.isDigit = true) ∨
        ((stripWhile isPySpace raw).map Char.toLower).contains '@' = true ∨
        hasSub ("email".toList) ((stripWhile isPySpace raw).map Char.toLower) = true ∨
        hasSub ("author".toList) ((stripWhile isPySpace raw).map Char.toLower) = true) := by
      push_neg
      refine ⟨fun hne => ?_, ?_, ?_, ?_⟩
      · intro hdig; exact h3 ⟨hne, hdig⟩
      · rw [h4]; simp
      · rw [h5]; simp
      · rw [h6]; simp
    rw [if_neg hA, if_neg hB, if_pos ⟨h7, h8⟩, if_pos ⟨h9, h10⟩,
      if_pos ⟨h1, h2, h3, h4, h5, h6, h7, h8, h9, h10⟩, sanitize_strip]
  · rw [if_neg hq]
    by_cases hA : (stripWhile isPySpace raw = [] ∨ (stripWhile isPySpace raw).length < 3 ∨
        5 < (stripWhile isPySpace raw).count '.')
    · rw [if_pos hA]
    · rw [if_neg hA]
      by_cases hB : ((stripWhile isPySpace raw ≠ [] ∧
            (stripWhile isPySpace raw).all Char.isDigit = true) ∨
          ((stripWhile isPySpace raw).map Char.toLower).contains '@' = true ∨
          hasSub ("email".toList) ((stripWhile isPySpace raw).map Char.toLower) = true ∨
          hasSub ("author".toList) ((stripWhile isPySpace raw).map Char.toLower) = true)
      · rw [if_pos hB]
      · rw [if_neg hB]
        by_cases hC : (5 < (stripWhile isPySpace raw).length ∧
            (stripWhile isPySpace raw).length < 200)
        · rw [if_pos hC]
          by_cases hD : (5 < (sanitize_candidate_title (stripWhile isPySpace raw)).length ∧
              0 < (sanitize_candidate_title (stripWhile isPySpace raw)).count ' ')
          · exfalso
            push_neg at hA hB
            exact hq ⟨by omega, by omega,
              fun ⟨hne, hdig⟩ => (by simpa using hB.1 hne hdig),
              by simpa using hB.2.1, by simpa using hB.2.2.1, by simpa using hB.2.2.2,
              hC.1, hC.2, hD.1, hD.2⟩
          · rw [if_neg hD]
        · rw [if_neg hC]

theorem pick_props (lines : List PyStr) (c : PyStr)
    (h : pick_title_from_lines lines = some c) :
    c ≠ [] ∧ 5 < c.length ∧ 0 < c.count ' ' ∧
    (∀ a, c.head? = some a → isPySpace a = false) ∧
    (∀ a, c.getLast? = some a → isPySpace a = false) := by
  induction lines with
  | nil => cases h
  | cons raw rest ih =>
    rw [pick_cons] at h
    by_cases hq : line_qualifies raw
    · rw [if_pos hq] at h
      injection h with h
      obtain ⟨_, _, _, _, _, _, _, _, h9, h10⟩ := hq
      rw [← h]
      exact ⟨List.ne_nil_of_length_pos (by omega), h9, h10,
        fun a ha => sanitize_head _ a ha, fun a ha => sanitize_getLast _ a ha⟩
    · rw [if_neg hq] at h
      exact ih h

theorem scan_props (pages : List (Option PyStr)) (m : Nat) (c : PyStr)
    (h : scan_pages pages m = some c) :
    c ≠ [] ∧ 5 < c.length ∧ 0 < c.count ' ' ∧
    (∀ a, c.head? = some a → isPySpace a = false) ∧
    (∀ a, c.getLast? = some a → isPySpace a = false) := by
  induction pages with
  | nil => cases h
  | cons t? rest ih =>
    cases t? with
    | none => exact ih (by simpa [scan_pages] using h)
    | some text =>
      simp only [scan_pages] at h
      by_cases htext : text = []
      · rw [if_pos htext] at h; exact ih h
      · rw [if_neg htext] at h
        by_cases htr : truthyS (pick_title_from_lines ((splitNl text).take m)) = true
        · rw [if_pos htr] at h
          exact pick_props _ _ h
        · rw [if_neg htr] at h; exact ih h

/-! ## Filename-normalization lemmas -/

theorem untitled_chars (c : Char) (h : c ∈ ("untitled".toList : PyStr)) :
    isReservedChar c = false := by
  have : c ∈ ['u', 'n', 't', 'i', 't', 'l', 'e', 'd'] := h
  simp only [List.mem_cons, List.not_mem_nil, or_false] at this
  rcases this with rfl | rfl | rfl | rfl | rfl | rfl | rfl | rfl <;> decide

theorem normalize_chars (t : Option PyStr) (c : Char)
    (h : c ∈ normalize_filename t) : isReservedChar c = false := by
  simp only [normalize_filename] at h
  split at h
  · exact untitled_chars c h
  · have h4 := List.take_subset 150 _ (mem_stripWhile _ _ _ h)
    rcases mem_collapseRuns _ _ _ _ h4 with rfl | ⟨hm, _⟩
    · decide
    · rcases List.mem_map.1 hm with ⟨a, _, hfa⟩
      by_cases hr : isReservedChar a = true
      · rw [← hfa, if_pos hr]; decide
      · rw [← hfa, if_neg hr]; simpa using hr

theorem normalize_ne_nil (t : Option PyStr) : normalize_filename t ≠ [] := by
  simp only [normalize_filename]
  split
  · decide
  · assumption

theorem normalize_head (t : Option PyStr) (c : Char)
    (h : (normalize_filename t).head? = some c) : c ≠ '.' ∧ c ≠ ' ' := by
  simp only [normalize_filename] at h
  split at h
  · cases h; decide
  · have := stripWhile_head _ _ _ h
    simpa using this

theorem normalize_getLast (t : Option PyStr) (c : Char)
    (h : (normalize_filename t).getLast? = some c) : c ≠ '.' ∧ c ≠ ' ' := by
  simp only [normalize_filename] at h
  split at h
  · cases h; decide
  · have := stripWhile_getLast _ _ _ h
    simpa using this

theorem normalize_len (t : Option PyStr) : (normalize_filename t).length ≤ 150 := by
  simp only [normalize_filename]
  split
  · decide
  · exact le_trans (stripWhile_length_le _ _) (List.length_take_le _ _)

/-! ## Collision-loop lemmas -/

theorem leadsWith_append (pat t : PyStr) : leadsWith pat (pat ++ t) = true := by
  induction pat with
  | nil => rfl
  | cons a as ih => simp [leadsWith, ih]

theorem dropThroughFirst_append (pat t : PyStr) (hne : pat ≠ []) :
    dropThroughFirst pat (pat ++ t) = some t := by
  cases pat with
  | nil => exact absurd rfl hne
  | cons a as =>
    show dropThroughFirst (a :: as) (a :: (as ++ t)) = some t
    simp only [dropThroughFirst]
    rw [if_pos (by exact leadsWith_append (a :: as) t)]
    rw [show a :: (as ++ t) = (a :: as) ++ t from rfl, List.drop_left]

theorem rsplit_pdf_base_append (x : PyStr) :
    rsplit_pdf_base (x ++ ".pdf".toList) = x := by
  unfold rsplit_pdf_base
  rw [List.reverse_append, dropThroughFirst_append _ _ (by decide)]
  exact List.reverse_reverse x

theorem candidate_zero (base : PyStr) : candidate base 0 = base ++ ".pdf".toList := by
  simp [candidate]

theorem candidate_pos (base : PyStr) (n : Nat) (h : n ≠ 0) :
    candidate base n = base ++ '_' :: natDigits n ++ ".pdf".toList := by
  simp [candidate, h]

theorem collision_loop_shape (orig cur : PyStr) (ex : List PyStr) :
    ∀ (fuel counter : Nat) (nf : PyStr),
      collision_loop orig cur ex fuel counter nf = nf ∨
      ∃ m, collision_loop orig cur ex fuel counter nf =
        rsplit_pdf_base orig ++ '_' :: natDigits m ++ ".pdf".toList := by
  intro fuel
  induction fuel with
  | zero => intro counter nf; exact Or.inl rfl
  | succ fuel ih =>
    intro counter nf
    simp only [collision_loop]
    split
    · rcases ih (counter + 1)
        (rsplit_pdf_base orig ++ '_' :: natDigits counter ++ ".pdf".toList) with h | ⟨m, h⟩
      · exact Or.inr ⟨counter, h⟩
      · exact Or.inr ⟨m, h⟩
    · exact Or.inl rfl

theorem collision_loop_reaches (part cur : PyStr) (ex : List PyStr) :
    ∀ (fuel j n : Nat), j ≤ n → n - j < fuel →
      (∀ k, j ≤ k → k < n → candidate part k ≠ cur ∧ candidate part k ∈ ex) →
      ¬(candidate part n ≠ cur ∧ candidate part n ∈ ex) →
      collision_loop (part ++ ".pdf".toList) cur ex fuel (j + 1) (candidate part j) =
        candidate part n := by
  intro fuel
  induction fuel with
  | zero => intro j n hjn hlt _ _; omega
  | succ fuel ih =>
    intro j n hjn hlt hcoll hfree
    rcases Nat.eq_or_lt_of_le hjn with rfl | hjlt
    · simp only [collision_loop]
      rw [if_neg hfree]
    · simp only [collision_loop]
      rw [if_pos (hcoll j le_rfl hjlt)]
      have hcand : rsplit_pdf_base (part ++ ".pdf".toList) ++ '_' ::
          natDigits (j + 1) ++ ".pdf".toList = candidate part (j + 1) := by
        rw [rsplit_pdf_base_append, candidate_pos part (j + 1) (by omega)]
      rw [hcand]
      exact ih (j + 1) n hjlt (by omega) (fun k hk1 hk2 => hcoll k (by omega) hk2) hfree

theorem digitChar_not_reserved (d : Nat) : isReservedChar (digitChar d) = false := by
  unfold digitChar
  repeat' split
  all_goals decide

theorem natDigits_chars (n : Nat) : ∀ c ∈ natDigits n, isReservedChar c = false := by
  induction n using Nat.strong_induction_on with
  | _ n ih =>
    intro c hc
    rw [natDigits_unfold] at hc
    split at hc
    · rw [List.mem_singleton] at hc
      rw [hc]
      exact digitChar_not_reserved n
    · rw [List.mem_append, List.mem_singleton] at hc
      rcases hc with hc | rfl
      · exact ih (n / 10) (Nat.div_lt_self (by omega) (by omega)) c hc
      · exact digitChar_not_reserved (n % 10)

theorem natDigits_length_pos (n : Nat) : 0 < (natDigits n).length := by
  rw [natDigits_unfold]
  split
  · simp
  · simp

theorem digitChar_inj_lt :
    ∀ a, a < 10 → ∀ b, b < 10 → digitChar a = digitChar b → a = b := by decide

theorem map_digitChar_inj :
    ∀ (l1 l2 : List Nat), (∀ x ∈ l1, x < 10) → (∀ x ∈ l2, x < 10) →
      l1.map digitChar = l2.map digitChar → l1 = l2 := by
  intro l1
  induction l1 with
  | nil =>
    intro l2 _ _ h
    cases l2 with
    | nil => rfl
    | cons b bs => cases h
  | cons a as ih =>
    intro l2 h1 h2 h
    cases l2 with
    | nil => cases h
    | cons b bs =>
      simp only [List.map_cons, List.cons_eq_cons] at h
      rw [digitChar_inj_lt a (h1 a (List.mem_cons_self a as)) b
          (h2 b (List.mem_cons_self b bs)) h.1,
        ih bs (fun x hx => h1 x (List.mem_cons_of_mem a hx))
          (fun x hx => h2 x (List.mem_cons_of_mem b hx)) h.2]

theorem natDigits_eq_digits (n : Nat) (h : 0 < n) :
    natDigits n = ((Nat.digits 10 n).map digitChar).reverse := by
  induction n using Nat.strong_induction_on with
  | _ n ih =>
    rw [natDigits_unfold, Nat.digits_def' (by norm_num) h]
    split
    · have h10 : n / 10 = 0 := Nat.div_eq_of_lt (by assumption)
      rw [h10, Nat.mod_eq_of_lt (by assumption)]
      simp
    · rw [List.map_cons, List.reverse_cons,
        ← ih (n / 10) (Nat.div_lt_self (by omega) (by omega))
          (Nat.div_pos (by omega) (by omega))]

theorem natDigits_inj (m n : Nat) (hm : 0 < m) (hn : 0 < n)
    (h : natDigits m = natDigits n) : m = n := by
  rw [natDigits_eq_digits m hm, natDigits_eq_digits n hn] at h
  have h2 := List.reverse_injective h
  have h3 : Nat.digits 10 m = Nat.digits 10 n :=
    map_digitChar_inj _ _ (fun x hx => Nat.digits_lt_base (by norm_num) hx)
      (fun x hx => Nat.digits_lt_base (by norm_num) hx) h2
  calc m = Nat.ofDigits 10 (Nat.digits 10 m) := (Nat.ofDigits_digits 10 m).symm
    _ = Nat.ofDigits 10 (Nat.digits 10 n) := by rw [h3]
    _ = n := Nat.ofDigits_digits 10 n

theorem candidate_inj (base : PyStr) : Function.Injective (candidate base) := by
  intro i j h
  by_cases hi : i = 0 <;> by_cases hj : j = 0
  · rw [hi, hj]
  · exfalso
    rw [hi, candidate_zero, candidate_pos base j hj] at h
    have hlen := congrArg List.length h
    simp [List.length_append] at hlen
  · exfalso
    rw [hj, candidate_zero, candidate_pos base i hi] at h
    have hlen := congrArg List.length h
    simp [List.length_append] at hlen
  · rw [candidate_pos base i hi, candidate_pos base j hj] at h
    have h2 := List.append_cancel_right h
    have h3 := List.append_cancel_left h2
    injection h3 with _ h4
    exact natDigits_inj i j (Nat.pos_of_ne_zero hi) (Nat.pos_of_ne_zero hj) h4

theorem exists_noncolliding (f : Nat → PyStr) (hinj : Function.Injective f)
    (ex : List PyStr) (cur : PyStr) :
    ∃ k, k ≤ ex.length ∧ ¬(f k ≠ cur ∧ f k ∈ ex) := by
  by_contra hcon
  push_neg at hcon
  have hsub : (Finset.range (ex.length + 1)).image f ⊆ ex.toFinset := by
    intro y hy
    rcases Finset.mem_image.1 hy with ⟨i, hi, rfl⟩
    exact List.mem_toFinset.2 (hcon i (Nat.lt_succ_iff.1 (Finset.mem_range.1 hi))).2
  have hcard := Finset.card_le_card hsub
  rw [Finset.card_image_of_injective _ hinj, Finset.card_range] at hcard
  have hfin := List.toFinset_card_le ex
  omega

theorem build_filename_spec (t : Option PyStr) (ex : List PyStr) (cur : PyStr) :
    ∃ n, build_filename t ex cur = candidate (normalize_filename t) n ∧
      ¬(candidate (normalize_filename t) n ≠ cur ∧ candidate (normalize_filename t) n ∈ ex) ∧
      (∀ k, k < n → candidate (normalize_filename t) k ≠ cur ∧
        candidate (normalize_filename t) k ∈ ex) := by
  obtain ⟨k0, hk0, hfree0⟩ :=
    exists_noncolliding (candidate (normalize_filename t)) (candidate_inj _) ex cur
  have hex : ∃ k, ¬(candidate (normalize_filename t) k ≠ cur ∧
      candidate (normalize_filename t) k ∈ ex) := ⟨k0, hfree0⟩
  refine ⟨Nat.find hex, ?_, Nat.find_spec hex, fun k hk => ?_⟩
  · have hn_le : Nat.find hex ≤ k0 := Nat.find_min' hex hfree0
    simp only [build_filename]
    nth_rewrite 2 [← candidate_zero (normalize_filename t)]
    exact collision_loop_reaches (normalize_filename t) cur ex (ex.length + 1) 0
      (Nat.find hex) (Nat.zero_le _) (by omega)
      (fun k _ hk2 => Decidable.not_not.1 (Nat.find_min hex hk2))
      (Nat.find_spec hex)
  · exact Decidable.not_not.1 (Nat.find_min hex hk)

set_option maxHeartbeats 1000000 in
theorem build_chars (t : Option PyStr) (ex : List PyStr) (cur : PyStr) (c : Char)
    (h : c ∈ build_filename t ex cur) : isReservedChar c = false := by
  have hpdf : ∀ x ∈ (".pdf".toList : PyStr), isReservedChar x = false := by decide
  unfold build_filename at h
  rcases collision_loop_shape (normalize_filename t ++ ".pdf".toList) cur ex
      (ex.length + 1) 1 (normalize_filename t ++ ".pdf".toList) with hc | ⟨m, hc⟩ <;>
    rw [hc] at h
  · rcases List.mem_append.1 h with h | h
    · exact normalize_chars t c h
    · exact hpdf c h
  · rw [rsplit_pdf_base_append] at h
    rcases List.mem_append.1 h with h | h
    · rcases List.mem_append.1 h with h | h
      · exact normalize_chars t c h
      · rcases List.mem_cons.1 h with rfl | h
        · decide
        · exact natDigits_chars m c h
    · exact hpdf c h

/-! ## Claims -/

/-- C1 counterexample: the metadata title `"%"` is non-empty, but it
sanitizes to the empty string, which is falsy in Python; the resolver then
falls through to the fallback extractor (lines 161-162) and returns the
fallback's title instead of the sanitized metadata title. -/
theorem C1_counterexample :
    ("%".toList : PyStr) ≠ [] ∧
    sanitize_candidate_title ("%".toList) = [] ∧
    resolve_title ⟨true, false, some ("%".toList), [], true,
      [some ("A Proper Title Here".toList)]⟩ =
      some ("A Proper Title Here".toList) :=
  ⟨by decide, by decide, by decide⟩

/-- C1 (amended): for every document that opens cleanly and whose metadata
title is non-empty AND sanitizes to a non-empty string, the pipeline
returns the sanitized metadata title, whatever the page texts of either
backend are (they are universally quantified and do not influence the
result). -/
theorem C1_metadata_precedence (mt : PyStr) (pages plumberPages : List (Option PyStr))
    (plumberOk : Bool) (hne : mt ≠ [])
    (hsan : sanitize_candidate_title mt ≠ []) :
    resolve_title ⟨true, false, some mt, pages, plumberOk, plumberPages⟩ =
      some (sanitize_candidate_title mt) := by
  have htr : truthyS (some (sanitize_candidate_title mt)) = true := by
    simp only [truthyS, Bool.not_eq_true']
    exact List.isEmpty_eq_false.2 hsan
  simp [resolve_title, extract_title_from_pdf_pypdf2, hne, htr]

/-- C1 witness: a concrete document with metadata title
`"My Great Title"` resolves to that title even though the primary backend's
page text would yield a different candidate. -/
theorem C1_metadata_precedence_witness :
    resolve_title ⟨true, false, some ("My Great Title".toList),
      [some ("Wrong Candidate Title".toList)], true, []⟩ =
      some (sanitize_candidate_title ("My Great Title".toList)) :=
  C1_metadata_precedence ("My Great Title".toList)
    [some ("Wrong Candidate Title".toList)] [] true (by decide) (by decide)

/-- C2: `pick_title_from_lines` returns the sanitized form of the first
line passing all the filters of the specification (and nothing when no
line qualifies), and on the spec's example
`["42", "john@example.com", "...", "A Study of Widgets in Motion"]` it
selects `"A Study of Widgets in Motion"`. -/
theorem C2_line_heuristic :
    (∀ lines, pick_title_from_lines lines = pickTitle_spec lines) ∧
    pick_title_from_lines
      ["42".toList, "john@example.com".toList, "...".toList,
        "A Study of Widgets in Motion".toList] =
      some ("A Study of Widgets in Motion".toList) := by
  constructor
  · intro lines
    induction lines with
    | nil => rfl
    | cons raw rest ih =>
      rw [pick_cons]
      by_cases hq : line_qualifies raw
      · rw [if_pos hq]
        unfold pickTitle_spec
        simp only [List.find?]
        rw [decide_eq_true hq]
        rfl
      · rw [if_neg hq]
        unfold pickTitle_spec
        simp only [List.find?]
        rw [decide_eq_false hq]
        exact ih
  · decide

/-- C3: the collision loop tries `base.pdf`, `base_1.pdf`, `base_2.pdf`, …
in order and returns the first candidate that is either absent from the
existing names or equal to the current name; in particular with existing
names `a.pdf`, `a_1.pdf`, base `a` and a distinct current name the result
is `a_2.pdf`. -/
theorem C3_collision_uniqueness :
    (∀ (title : Option PyStr) (existing : List PyStr) (current : PyStr),
      ∃ n, build_filename title existing current = candidate (normalize_filename title) n ∧
        ¬(candidate (normalize_filename title) n ≠ current ∧
          candidate (normalize_filename title) n ∈ existing) ∧
        (∀ k, k < n → candidate (normalize_filename title) k ≠ current ∧
          candidate (normalize_filename title) k ∈ existing)) ∧
    build_filename (some ("a".toList)) ["a.pdf".toList, "a_1.pdf".toList]
      ("b.pdf".toList) = "a_2.pdf".toList :=
  ⟨build_filename_spec, by decide⟩

/-- C4: for every title (present or absent), the normalized stem is
non-empty and neither starts nor ends with a dot or a space, and the whole
built filename (collision suffix included) contains no reserved filesystem
character. -/
theorem C4_filename_safety (title : Option PyStr) (existing : List PyStr) (current : PyStr) :
    normalize_filename title ≠ [] ∧
    (∀ c, c ∈ build_filename title existing current → isReservedChar c = false) ∧
    (∀ c, (normalize_filename title).head? = some c → c ≠ '.' ∧ c ≠ ' ') ∧
    (∀ c, (normalize_filename title).getLast? = some c → c ≠ '.' ∧ c ≠ ' ') :=
  ⟨normalize_ne_nil title, fun c hc => build_chars title existing current c hc,
    fun c hc => normalize_head title c hc, fun c hc => normalize_getLast title c hc⟩

/-- C4 witness at a concrete title. -/
theorem C4_filename_safety_witness :
    normalize_filename (some ("a b".toList)) ≠ [] ∧ isReservedChar 'a' = false :=
  ⟨(C4_filename_safety (some ("a b".toList)) [] ("q.pdf".toList)).1,
    (C4_filename_safety (some ("a b".toList)) [] ("q.pdf".toList)).2.1 'a' (by decide)⟩

set_option maxRecDepth 4000 in
/-- C5 counterexample: a 150-character title whose plain name collides;
the suffixed result `aaaa…a_1.pdf` has 156 characters, exceeding the
claimed bound of 154, because the `_1` suffix is appended after the
150-character truncation. -/
theorem C5_counterexample :
    154 < (build_filename (some (List.replicate 150 'a'))
      [List.replicate 150 'a' ++ ".pdf".toList] ("b.pdf".toList)).length := by decide

/-- C5 (amended): the built filename has length at most 154 when no
collision suffix is appended; when the loop appends `_<m>`, the result is
the normalized stem plus `_<m>.pdf` and its length is at most
`155 + (number of digits of m)`. -/
theorem C5_length_bound (title : Option PyStr) (existing : List PyStr) (current : PyStr) :
    (build_filename title existing current).length ≤ 154 ∨
    ∃ m, build_filename title existing current =
        normalize_filename title ++ '_' :: natDigits m ++ ".pdf".toList ∧
      (build_filename title existing current).length ≤ 155 + (natDigits m).length := by
  have hn := normalize_len title
  have hpdf : (".pdf".toList : PyStr).length = 4 := by decide
  simp only [build_filename]
  rcases collision_loop_shape (normalize_filename title ++ ".pdf".toList) current existing
      (existing.length + 1) 1 (normalize_filename title ++ ".pdf".toList) with hc | ⟨m, hc⟩
  · left
    rw [hc, List.length_append, hpdf]
    omega
  · right
    rw [rsplit_pdf_base_append] at hc
    refine ⟨m, hc, ?_⟩
    rw [hc, List.length_append, List.length_append, List.length_cons, hpdf]
    omega

/-- C6 counterexample: `sanitize("a % b")` is `"a  b"` (the deleted `%`
leaves two adjacent spaces behind, and whitespace collapsing has already
happened), so a second application changes the string again. -/
theorem C6_counterexample :
    sanitize_candidate_title (sanitize_candidate_title ("a % b".toList)) ≠
      sanitize_candidate_title ("a % b".toList) := by decide

/-- C6 (amended): the sanitizer is idempotent from the second application
on: `sanitize (sanitize x)` is a fixed point of `sanitize` for every
string `x`. -/
theorem C6_sanitize_idem (x : PyStr) :
    sanitize_candidate_title (sanitize_candidate_title (sanitize_candidate_title x)) =
      sanitize_candidate_title (sanitize_candidate_title x) :=
  sanitize_of_normal _ (normal_sanitize_sanitize x)

/-- C7 counterexample: a document whose metadata title is `"AB"` makes the
pipeline produce the candidate `"AB"`, which has length 2 and no space —
the metadata path applies no length or space check. -/
theorem C7_counterexample :
    resolve_title ⟨true, false, some ("AB".toList), [], true, []⟩ = some ("AB".toList) ∧
    ¬(5 < ("AB".toList : PyStr).length ∧ 0 < ("AB".toList : PyStr).count ' ') :=
  ⟨by decide, by decide⟩

/-- C7 (amended): every candidate produced by the content-extraction paths
(the line heuristic, hence both page scans) is non-empty, has cleaned
length above 5 and contains at least one interior space (its ends are
non-whitespace); metadata-path candidates are only sanitized and need not
satisfy this. -/
theorem C7_candidate_invariant :
    (∀ (lines : List PyStr) (c : PyStr), pick_title_from_lines lines = some c →
      c ≠ [] ∧ 5 < c.length ∧ 0 < c.count ' ' ∧
      (∀ a, c.head? = some a → isPySpace a = false) ∧
      (∀ a, c.getLast? = some a → isPySpace a = false)) ∧
    (∀ (pages : List (Option PyStr)) (m : Nat) (c : PyStr), scan_pages pages m = some c →
      c ≠ [] ∧ 5 < c.length ∧ 0 < c.count ' ' ∧
      (∀ a, c.head? = some a → isPySpace a = false) ∧
      (∀ a, c.getLast? = some a → isPySpace a = false)) :=
  ⟨pick_props, scan_props⟩

/-- C7 witness at a concrete line list. -/
theorem C7_candidate_invariant_witness :
    ("Widgets and Gadgets Galore".toList : PyStr) ≠ [] ∧
    5 < ("Widgets and Gadgets Galore".toList : PyStr).length :=
  ⟨(C7_candidate_invariant.1 ["Widgets and Gadgets Galore".toList]
      ("Widgets and Gadgets Galore".toList) (by decide)).1,
    (C7_candidate_invariant.1 ["Widgets and Gadgets Galore".toList]
      ("Widgets and Gadgets Galore".toList) (by decide)).2.1⟩

/-- C8 counterexample: when reading the metadata raises, the `except` on
line 55 aborts the whole PyPDF2 extractor, so the primary-backend page
scan is skipped even though it would have produced a title; with an empty
fallback backend the pipeline returns nothing. -/
theorem C8_counterexample :
    resolve_title ⟨true, true, none, [some ("Another Fine Title".toList)], true, []⟩ =
      none ∧
    scan_pages (([some ("Another Fine Title".toList)] : List (Option PyStr)).take 3) 20 =
      some ("Another Fine Title".toList) :=
  ⟨by decide, by decide⟩

/-- C8 (amended): when the metadata step completes without raising and
yields no truthy title (missing or empty), the PyPDF2 extractor proceeds
to the primary-backend page scan; and whenever the PyPDF2 extractor as a
whole returns a falsy result, the resolver tries the fallback extractor.
An exception while reading the metadata, however, aborts the primary page
scan (both live in one guarded block). -/
theorem C8_step_independence :
    (∀ d : PdfDocument, d.openOk = true → d.metaRaises = false →
      truthyS d.metaTitle = false →
      extract_title_from_pdf_pypdf2 d = scan_pages (d.pages.take 3) 20) ∧
    (∀ d : PdfDocument, truthyS (extract_title_from_pdf_pypdf2 d) = false →
      resolve_title d = extract_title_from_pdf_pdfplumber d) := by
  constructor
  · intro d h1 h2 h3
    unfold extract_title_from_pdf_pypdf2
    rw [if_neg (by simp [h1, h2])]
    cases hmt : d.metaTitle with
    | none => rfl
    | some t =>
      rw [hmt] at h3
      have ht : t = [] := by
        simpa [truthyS] using h3
      simp [ht]
  · intro d h
    unfold resolve_title
    rw [if_neg (by simp [h])]

/-- C8 witness at a concrete document with no metadata. -/
theorem C8_step_independence_witness :
    extract_title_from_pdf_pypdf2 ⟨true, false, none, [], true, []⟩ =
      scan_pages (([] : List (Option PyStr)).take 3) 20 ∧
    resolve_title ⟨true, false, none, [], true, []⟩ =
      extract_title_from_pdf_pdfplumber ⟨true, false, none, [], true, []⟩ :=
  ⟨C8_step_independence.1 ⟨true, false, none, [], true, []⟩ rfl rfl (by decide),
    C8_step_independence.2 ⟨true, false, none, [], true, []⟩ (by decide)⟩

/-- C9: when the built filename equals the current filename, the collision
loop exits immediately (no suffix even if the name is listed in the
directory) and no rename is performed. -/
theorem C9_self_rename (title : Option PyStr) (existing : List PyStr) (current : PyStr)
    (h : normalize_filename title ++ ".pdf".toList = current) :
    build_filename title existing current = current ∧
    rename_decision title existing current = none := by
  have hb : build_filename title existing current = current := by
    simp only [build_filename, collision_loop]
    rw [h]
    rw [if_neg (by simp)]
  refine ⟨hb, ?_⟩
  simp only [rename_decision]
  rw [hb, if_pos rfl]

/-- C9 witness: renaming `a.pdf` to itself while `a.pdf` is listed in the
directory. -/
theorem C9_self_rename_witness :
    build_filename (some ("a".toList)) ["a.pdf".toList] ("a.pdf".toList) = "a.pdf".toList ∧
    rename_decision (some ("a".toList)) ["a.pdf".toList] ("a.pdf".toList) = none :=
  C9_self_rename (some ("a".toList)) ["a.pdf".toList] ("a.pdf".toList) (by decide)

/-- C10: every character of the sanitizer's output is outside category C:
the first step filters on the category table and the later steps introduce
only spaces. -/
theorem C10_catC_removed (x : PyStr) (c : Char) (h : c ∈ sanitize_candidate_title x) :
    isCatC c = false :=
  (sanitize_chars x c h).1

/-- C10 witness at a concrete string. -/
theorem C10_catC_removed_witness : isCatC 'T' = false :=
  C10_catC_removed ("The Cat".toList) 'T' (by decide)

end RenamePdf
